import Mathlib

/-!
Shallow embedding of `src/crewai/llm.py` (the `LLM` facade over litellm) and
proofs about its specified behaviour: context-window lookup, callback
registration bookkeeping, provider-parameter assembly, response routing and
configuration (de)serialization.

Conventions of the embedding:
* Python `dict`s are association lists in insertion order (CPython dicts
  preserve insertion order, and all dict literals here have distinct keys).
* Python `str.startswith` is `pyStartsWith` (character-list prefix test).
* Mutation of `self` / of the process-wide `litellm` module state is made
  explicit: functions return the updated record next to their result.
* Machine floats appear only in `int(value * 0.75)`; every capacity in the
  table (and the default 8192) is divisible by 4 and far below 2^53, so the
  float product is exact and the truncation equals `value * 3 / 4` on `Nat`.
-/

/-- `LLM_CONTEXT_WINDOW_SIZES` from the source, as an association list in the
dict literal's insertion order. -/
def LLM_CONTEXT_WINDOW_SIZES : List (String × Nat) :=
  [("gpt-4", 8192),
   ("gpt-4o", 128000),
   ("gpt-4o-mini", 128000),
   ("gpt-4-turbo", 128000),
   ("o1-preview", 128000),
   ("o1-mini", 128000),
   ("gemini-2.0-flash", 1048576),
   ("gemini-1.5-pro", 2097152),
   ("gemini-1.5-flash", 1048576),
   ("gemini-1.5-flash-8b", 1048576),
   ("deepseek-chat", 128000),
   ("gemma2-9b-it", 8192),
   ("gemma-7b-it", 8192),
   ("llama3-groq-70b-8192-tool-use-preview", 8192),
   ("llama3-groq-8b-8192-tool-use-preview", 8192),
   ("llama-3.1-70b-versatile", 131072),
   ("llama-3.1-8b-instant", 131072),
   ("llama-3.2-1b-preview", 8192),
   ("llama-3.2-3b-preview", 8192),
   ("llama-3.2-11b-text-preview", 8192),
   ("llama-3.2-90b-text-preview", 8192),
   ("llama3-70b-8192", 8192),
   ("llama3-8b-8192", 8192),
   ("mixtral-8x7b-32768", 32768),
   ("llama-3.3-70b-versatile", 128000),
   ("llama-3.3-70b-instruct", 128000)]

/-- `DEFAULT_CONTEXT_WINDOW_SIZE` from the source. -/
def DEFAULT_CONTEXT_WINDOW_SIZE : Nat := 8192

/-- `int(value * CONTEXT_WINDOW_USAGE_RATIO)` with the usage ratio 0.75.
For every capacity in `LLM_CONTEXT_WINDOW_SIZES` and for the default 8192 the
value is divisible by 4 and below 2^53, so the Python float multiplication is
exact and `int` truncation coincides with `value * 3 / 4` in `Nat`. -/
def scaledWindow (value : Nat) : Nat := value * 3 / 4

/-- Python `str.startswith`: the candidate is a character-prefix of `s`. -/
def pyStartsWith (s pre : String) : Bool := pre.data.isPrefixOf s.data

/-- An observability hook handle. `kind` models the Python runtime class
(`type(callback)`); `uid` distinguishes object identities within a kind. -/
structure Callback where
  kind : Nat
  uid : Nat
deriving DecidableEq, Repr

/-- Python `str | List[str]` for the `stop` parameter. -/
inductive StrOrList where
  | single (s : String)
  | many (l : List String)
deriving DecidableEq, Repr

/-- The `LLM` instance: the constructor parameters of `LLM.__init__` plus the
`context_window_size` cache it initializes to 0.  Numeric payloads (Python
`float`/`int`) are carried as `Int`: no claim computes with them, they are
stored and forwarded opaquely.  Defaults mirror the Python signature. -/
structure LLM where
  model : String
  timeout : Option Int := none
  temperature : Option Int := none
  top_p : Option Int := none
  n : Option Int := none
  stop : Option StrOrList := none
  max_completion_tokens : Option Int := none
  max_tokens : Option Int := none
  presence_penalty : Option Int := none
  frequency_penalty : Option Int := none
  logit_bias : Option (List (Int × Int)) := none
  response_format : Option (List (String × String)) := none
  seed : Option Int := none
  logprobs : Option Bool := none
  top_logprobs : Option Int := none
  base_url : Option String := none
  api_version : Option String := none
  api_key : Option String := none
  callbacks : List Callback := []
  context_window_size : Nat := 0
deriving DecidableEq, Repr

/-- The uncached body of `LLM.get_context_window_size`: start from the scaled
default and overwrite the running result with the scaled capacity of every
table entry whose key is a prefix of the model name, so the last matching
entry wins. -/
def computeWindowSize (model : String) : Nat :=
  LLM_CONTEXT_WINDOW_SIZES.foldl
    (fun acc kv => if pyStartsWith model kv.1 then scaledWindow kv.2 else acc)
    (scaledWindow DEFAULT_CONTEXT_WINDOW_SIZE)

/-- `LLM.get_context_window_size`: return the cached value when non-zero;
otherwise compute the prefix-matched size, cache it and return it.  The
updated instance is returned next to the result. -/
def LLM.get_context_window_size (self : LLM) : Nat × LLM :=
  if self.context_window_size ≠ 0 then
    (self.context_window_size, self)
  else
    (computeWindowSize self.model,
     { self with context_window_size := computeWindowSize self.model })

/-- The process-wide mutable state of the `litellm` module that
`LLM.set_callbacks` reads and writes: `litellm.success_callback`,
`litellm._async_success_callback` and `litellm.callbacks`. -/
structure LitellmState where
  success_callback : List Callback
  async_success_callback : List Callback
  callbacks : List Callback
deriving DecidableEq, Repr

/-- `LLM.set_callbacks`: iterating over a copy of each hook list and calling
`.remove` on every hook whose runtime type occurs among the incoming types
removes exactly the hooks whose kind occurs among the incoming kinds, i.e. a
filter; `litellm.callbacks` is then assigned the incoming list wholesale. -/
def LLM.set_callbacks (callbacks : List Callback) (st : LitellmState) : LitellmState :=
  let callback_types := callbacks.map (fun c => c.kind)
  { success_callback :=
      st.success_callback.filter (fun c => !callback_types.contains c.kind),
    async_success_callback :=
      st.async_success_callback.filter (fun c => !callback_types.contains c.kind),
    callbacks := callbacks }

/-- A value in the outgoing provider parameter set of `LLM.call`. -/
inductive PValue where
  | pStr (s : String)
  | pInt (n : Int)
  | pBool (b : Bool)
  | pStrOrList (v : StrOrList)
  | pIntMap (l : List (Int × Int))
  | pStrMap (l : List (String × String))
  | pMsgs (l : List (List (String × String)))
  | pTools (l : List String)
deriving DecidableEq, Repr

/-- Python `List[Dict[str, str]]` conversation messages. -/
abbrev Messages := List (List (String × String))

/-- A tool/function schema dict, opaque to the orchestration core. -/
abbrev ToolSchema := String

/-- Python `a or b` on optional integers: `a` is kept when truthy (present
and non-zero), otherwise `b` is the result. -/
def pyOrInt : Option Int → Option Int → Option Int
  | some v, b => if v = 0 then b else some v
  | none, b => b

/-- The `params` dict literal of `LLM.call` before the
`if v is not None` comprehension: every entry in insertion order, with `none`
marking a Python `None` value. -/
def LLM.paramsPre (self : LLM) (messages : Messages)
    (tools : Option (List ToolSchema)) : List (String × Option PValue) :=
  [("model", some (.pStr self.model)),
   ("messages", some (.pMsgs messages)),
   ("timeout", self.timeout.map .pInt),
   ("temperature", self.temperature.map .pInt),
   ("top_p", self.top_p.map .pInt),
   ("n", self.n.map .pInt),
   ("stop", self.stop.map .pStrOrList),
   ("max_tokens", (pyOrInt self.max_tokens self.max_completion_tokens).map .pInt),
   ("presence_penalty", self.presence_penalty.map .pInt),
   ("frequency_penalty", self.frequency_penalty.map .pInt),
   ("logit_bias", self.logit_bias.map .pIntMap),
   ("response_format", self.response_format.map .pStrMap),
   ("seed", self.seed.map .pInt),
   ("logprobs", self.logprobs.map .pBool),
   ("top_logprobs", self.top_logprobs.map .pInt),
   ("api_base", self.base_url.map .pStr),
   ("api_version", self.api_version.map .pStr),
   ("api_key", self.api_key.map .pStr),
   ("stream", some (.pBool false)),
   ("tools", tools.map .pTools)]

/-- The outgoing parameter set of `LLM.call`:
`params = {k: v for k, v in params.items() if v is not None}`. -/
def LLM.callParams (self : LLM) (messages : Messages)
    (tools : Option (List ToolSchema)) : List (String × PValue) :=
  (self.paramsPre messages tools).filterMap
    (fun kv => kv.2.map (fun v => (kv.1, v)))

/-- `tool_call.function` of a provider response: a function name and a raw
JSON argument payload. -/
structure ToolCallFunction where
  name : String
  arguments : String
deriving DecidableEq, Repr

/-- One entry of a response message's tool-call list. -/
structure ToolCall where
  function : ToolCallFunction
deriving DecidableEq, Repr

/-- The first choice's message of a provider response.  `content` may be
`None`; `getattr(message, "tool_calls", [])` collapses an absent or `None`
tool-call list to the empty list. -/
structure ChoiceMessage where
  content : Option String
  tool_calls : List ToolCall
deriving DecidableEq, Repr

/-- A decoded argument mapping (the result of `json.loads` when it yields a
key-to-value mapping); values are carried opaquely as strings. -/
abbrev Args := List (String × String)

/-- The result of `LLM.call`: the message text, or a dispatched tool
function's result (of arbitrary type `ρ`). -/
inductive RouteResult (ρ : Type) where
  | text (s : String)
  | toolResult (r : ρ)
deriving DecidableEq, Repr

/-- A `logging.warning` / `logging.error` event emitted by `LLM.call`. -/
inductive LogEvent where
  | warning (msg : String)
  | error (msg : String)
deriving DecidableEq, Repr

/-- The response-routing section of `LLM.call` (lines 263-305): return the
message text when there are no tool calls or no (non-empty, Python truthiness)
function table; otherwise dispatch the first tool call, falling back to the
text on unknown function name, argument-decode failure or function failure.
`decode` stands for `json.loads` restricted to mapping results. -/
def routeResponse {ρ : Type} (decode : String → Option Args)
    (available_functions : Option (List (String × (Args → Except String ρ))))
    (response_message : ChoiceMessage) : RouteResult ρ × List LogEvent :=
  let text_response := response_message.content.getD ""
  match response_message.tool_calls, available_functions with
  | [], _ => (.text text_response, [])
  | _ :: _, none => (.text text_response, [])
  | tool_call :: _, some fns =>
    if fns.isEmpty then (.text text_response, [])
    else
      let function_name := tool_call.function.name
      match fns.find? (fun kv => kv.1 == function_name) with
      | none =>
        (.text text_response,
         [.warning ("Tool call requested unknown function " ++ function_name)])
      | some kv =>
        match decode tool_call.function.arguments with
        | none =>
          (.text text_response, [.warning "Failed to parse function arguments"])
        | some function_args =>
          match kv.2 function_args with
          | .error e =>
            (.text text_response,
             [.error ("Error executing function " ++ function_name ++ ": " ++ e)])
          | .ok result => (.toolResult result, [])

/-- `LLM.call`: re-register callbacks when a truthy override is supplied,
build the parameter set, invoke the external completion provider, then route
the response.  A provider failure is classified by
`is_context_limit_error` — the text-match heuristic of
`LLMContextLengthExceededException._is_context_limit_error`, which lives in a
repository module outside the provided sources and is therefore kept as an
opaque predicate on the failure message — and re-raised
(`Except.error`) in both branches; the generic error log is emitted only when
the heuristic does not match.  `completion` stands for `litellm.completion`. -/
def LLM.call {ρ : Type} (self : LLM) (messages : Messages)
    (tools : Option (List ToolSchema)) (callbacks : Option (List Callback))
    (available_functions : Option (List (String × (Args → Except String ρ))))
    (decode : String → Option Args)
    (is_context_limit_error : String → Bool)
    (completion : List (String × PValue) → Except String ChoiceMessage)
    (st : LitellmState) :
    Except String (RouteResult ρ) × LitellmState × List LogEvent :=
  let st1 := match callbacks with
    | some cbs => if cbs.isEmpty then st else LLM.set_callbacks cbs st
    | none => st
  let params := self.callParams messages tools
  match completion params with
  | .error e =>
    (.error e, st1,
     if is_context_limit_error e then []
     else [.error ("LiteLLM call failed: " ++ e)])
  | .ok response_message =>
    let routed := routeResponse decode available_functions response_message
    (.ok routed.1, st1, routed.2)

/-- A value stored in the plain key-value mapping handled by `LLM.to_dict`
and `LLM.from_dict`.  `vNone` is Python `None` (also the default that
`dict.pop(key, None)` yields for a missing key); `vExtra` carries the payload
of an unknown extra key opaquely. -/
inductive DVal where
  | vNone
  | vStr (s : String)
  | vInt (n : Int)
  | vBool (b : Bool)
  | vStrOrList (v : StrOrList)
  | vIntMap (l : List (Int × Int))
  | vStrMap (l : List (String × String))
  | vCallbacks (l : List Callback)
  | vExtra (payload : Nat)
deriving DecidableEq, Repr

def dOptInt : Option Int → DVal
  | none => .vNone
  | some n => .vInt n

def dOptBool : Option Bool → DVal
  | none => .vNone
  | some b => .vBool b

def dOptStr : Option String → DVal
  | none => .vNone
  | some s => .vStr s

def dOptStrOrList : Option StrOrList → DVal
  | none => .vNone
  | some v => .vStrOrList v

def dOptIntMap : Option (List (Int × Int)) → DVal
  | none => .vNone
  | some l => .vIntMap l

def dOptStrMap : Option (List (String × String)) → DVal
  | none => .vNone
  | some l => .vStrMap l

/-- `LLM.to_dict`: the dict of all relevant parameters for serialization, in
the source's key order. -/
def LLM.to_dict (self : LLM) : List (String × DVal) :=
  [("model", .vStr self.model),
   ("timeout", dOptInt self.timeout),
   ("temperature", dOptInt self.temperature),
   ("top_p", dOptInt self.top_p),
   ("n", dOptInt self.n),
   ("stop", dOptStrOrList self.stop),
   ("max_completion_tokens", dOptInt self.max_completion_tokens),
   ("max_tokens", dOptInt self.max_tokens),
   ("presence_penalty", dOptInt self.presence_penalty),
   ("frequency_penalty", dOptInt self.frequency_penalty),
   ("logit_bias", dOptIntMap self.logit_bias),
   ("response_format", dOptStrMap self.response_format),
   ("seed", dOptInt self.seed),
   ("logprobs", dOptBool self.logprobs),
   ("top_logprobs", dOptInt self.top_logprobs),
   ("base_url", dOptStr self.base_url),
   ("api_version", dOptStr self.api_version),
   ("api_key", dOptStr self.api_key),
   ("callbacks", .vCallbacks self.callbacks)]

/-- Python `data.pop(key, None)` on a dict held as an association list with
unique keys: the popped value (or `None` when absent) together with the
mapping left in the caller's variable after the mutation. -/
def dictPop (data : List (String × DVal)) (k : String) :
    DVal × List (String × DVal) :=
  match data.find? (fun kv => kv.1 == k) with
  | some kv => (kv.2, data.filter (fun kv => kv.1 != k))
  | none => (.vNone, data)

def decodeStr : DVal → Except String String
  | .vStr s => .ok s
  | _ => .error "field type"

def decodeOptInt : DVal → Except String (Option Int)
  | .vNone => .ok none
  | .vInt n => .ok (some n)
  | _ => .error "field type"

def decodeOptBool : DVal → Except String (Option Bool)
  | .vNone => .ok none
  | .vBool b => .ok (some b)
  | _ => .error "field type"

def decodeOptStr : DVal → Except String (Option String)
  | .vNone => .ok none
  | .vStr s => .ok (some s)
  | _ => .error "field type"

def decodeOptStrOrList : DVal → Except String (Option StrOrList)
  | .vNone => .ok none
  | .vStrOrList v => .ok (some v)
  | _ => .error "field type"

def decodeOptIntMap : DVal → Except String (Option (List (Int × Int)))
  | .vNone => .ok none
  | .vIntMap l => .ok (some l)
  | _ => .error "field type"

def decodeOptStrMap : DVal → Except String (Option (List (String × String)))
  | .vNone => .ok none
  | .vStrMap l => .ok (some l)
  | _ => .error "field type"

/-- Decoding the `callbacks` keyword.  A `None` value is a genuine failure in
the source: `__init__` hands it to `set_callbacks`, which iterates it and
raises `TypeError: NoneType object is not iterable`. -/
def decodeCallbacks : DVal → Except String (List Callback)
  | .vCallbacks l => .ok l
  | _ => .error "TypeError: NoneType object is not iterable"

/-- The keyword-call `cls(**known_fields, **data)` performed by
`LLM.from_dict`.  Binding fails with a `TypeError` when `data` still holds
any key, because `__init__` declares no `**kwargs` and none of its parameter
names can remain in `data` after the pops.  The per-field decoders restrict
the embedding to payloads of the fields' annotated types; Python's `__init__`
assigns whatever objects it is handed without inspecting them, and no claim
exercises ill-typed payloads.  The constructed instance has
`context_window_size = 0`, as set by `__init__`; the `set_callbacks` /
`set_env_callbacks` process-wide effects of `__init__` are modelled
separately by `LLM.set_callbacks`. -/
def LLM.mk_kwargs (model timeout temperature top_p n stop max_completion_tokens
    max_tokens presence_penalty frequency_penalty logit_bias response_format
    seed logprobs top_logprobs base_url api_version api_key callbacks : DVal)
    (extra : List (String × DVal)) : Except String LLM :=
  if !extra.isEmpty then
    .error "TypeError: unexpected keyword argument"
  else do
    let model ← decodeStr model
    let timeout ← decodeOptInt timeout
    let temperature ← decodeOptInt temperature
    let top_p ← decodeOptInt top_p
    let n ← decodeOptInt n
    let stop ← decodeOptStrOrList stop
    let max_completion_tokens ← decodeOptInt max_completion_tokens
    let max_tokens ← decodeOptInt max_tokens
    let presence_penalty ← decodeOptInt presence_penalty
    let frequency_penalty ← decodeOptInt frequency_penalty
    let logit_bias ← decodeOptIntMap logit_bias
    let response_format ← decodeOptStrMap response_format
    let seed ← decodeOptInt seed
    let logprobs ← decodeOptBool logprobs
    let top_logprobs ← decodeOptInt top_logprobs
    let base_url ← decodeOptStr base_url
    let api_version ← decodeOptStr api_version
    let api_key ← decodeOptStr api_key
    let callbacks ← decodeCallbacks callbacks
    .ok { model, timeout, temperature, top_p, n, stop, max_completion_tokens,
          max_tokens, presence_penalty, frequency_penalty, logit_bias,
          response_format, seed, logprobs, top_logprobs, base_url,
          api_version, api_key, callbacks, context_window_size := 0 }

/-- `LLM.from_dict`: pop every known constructor field out of the caller's
mapping (mutating it), then construct via `cls(**known_fields, **data)`.
Returns the construction outcome together with the mapping as the caller
observes it afterwards. -/
def LLM.from_dict (data : List (String × DVal)) :
    Except String LLM × List (String × DVal) :=
  let p1 := dictPop data "model"
  let p2 := dictPop p1.2 "timeout"
  let p3 := dictPop p2.2 "temperature"
  let p4 := dictPop p3.2 "top_p"
  let p5 := dictPop p4.2 "n"
  let p6 := dictPop p5.2 "stop"
  let p7 := dictPop p6.2 "max_completion_tokens"
  let p8 := dictPop p7.2 "max_tokens"
  let p9 := dictPop p8.2 "presence_penalty"
  let p10 := dictPop p9.2 "frequency_penalty"
  let p11 := dictPop p10.2 "logit_bias"
  let p12 := dictPop p11.2 "response_format"
  let p13 := dictPop p12.2 "seed"
  let p14 := dictPop p13.2 "logprobs"
  let p15 := dictPop p14.2 "top_logprobs"
  let p16 := dictPop p15.2 "base_url"
  let p17 := dictPop p16.2 "api_version"
  let p18 := dictPop p17.2 "api_key"
  let p19 := dictPop p18.2 "callbacks"
  (LLM.mk_kwargs p1.1 p2.1 p3.1 p4.1 p5.1 p6.1 p7.1 p8.1 p9.1 p10.1 p11.1
    p12.1 p13.1 p14.1 p15.1 p16.1 p17.1 p18.1 p19.1 p19.2, p19.2)

/-- The constructor parameter names popped by `LLM.from_dict`. -/
def knownFieldKeys : List String :=
  ["model", "timeout", "temperature", "top_p", "n", "stop",
   "max_completion_tokens", "max_tokens", "presence_penalty",
   "frequency_penalty", "logit_bias", "response_format", "seed", "logprobs",
   "top_logprobs", "base_url", "api_version", "api_key", "callbacks"]

/-- A fold that overwrites its accumulator at every element satisfying `p`
computes `g` of the last such element, or keeps the seed when none exists. -/
theorem foldl_overwrite_eq_find_reverse {α β : Type} (p : α → Bool) (g : α → β)
    (l : List α) (i : β) :
    l.foldl (fun acc x => if p x then g x else acc) i =
      ((l.reverse.find? p).map g).getD i := by
  induction l using List.reverseRecOn generalizing i with
  | nil => rfl
  | append_singleton l x ih =>
    rw [List.foldl_append, List.reverse_append]
    simp only [List.foldl_cons, List.foldl_nil, List.reverse_singleton, List.singleton_append]
    by_cases h : p x
    · rw [List.find?_cons_of_pos _ h]
      simp [h]
    · rw [List.find?_cons_of_neg _ h]
      simp only [h, Bool.false_eq_true, not_false_eq_true, ite_false]
      exact ih i

/-- `find?` returns the head of the filtered list. -/
theorem find?_eq_head_filter {α : Type} (p : α → Bool) (l : List α) :
    l.find? p = (l.filter p).head? := by
  induction l with
  | nil => rfl
  | cons x xs ih =>
    by_cases h : p x
    · rw [List.find?_cons_of_pos _ h, List.filter_cons_of_pos h, List.head?_cons]
    · rw [List.find?_cons_of_neg _ h, List.filter_cons_of_neg h, ih]

/-- The last element of a filtered list is the first match of the reverse. -/
theorem getLast?_filter_eq_find_reverse {α : Type} (p : α → Bool) (l : List α) :
    (l.filter p).getLast? = l.reverse.find? p := by
  rw [find?_eq_head_filter, ← List.head?_reverse, List.filter_reverse]

/-- The result of a fresh lookup (`context_window_size = 0`) is determined by
the last table entry whose key is a prefix of the model name. -/
theorem get_context_window_size_eq_find (self : LLM)
    (hcache : self.context_window_size = 0) :
    self.get_context_window_size.1 =
      ((LLM_CONTEXT_WINDOW_SIZES.reverse.find?
          (fun kv => pyStartsWith self.model kv.1)).map
        (fun kv => scaledWindow kv.2)).getD
        (scaledWindow DEFAULT_CONTEXT_WINDOW_SIZE) := by
  unfold LLM.get_context_window_size
  rw [if_neg (by simp [hcache])]
  exact foldl_overwrite_eq_find_reverse
    (fun kv => pyStartsWith self.model kv.1)
    (fun kv => scaledWindow kv.2)
    LLM_CONTEXT_WINDOW_SIZES
    (scaledWindow DEFAULT_CONTEXT_WINDOW_SIZE)

theorem scaledWindow_default : scaledWindow DEFAULT_CONTEXT_WINDOW_SIZE = 6144 := rfl

/-- C1: on a fresh instance, a model name matched by no table key yields
`int(8192 * 0.75) = 6144`, and a model name matched by at least one key
yields `int(capacity * 0.75)` where `capacity` is the value of the matched
entry (when several keys match, the entry that determines the result is the
last matching one in table order, restated as C2). -/
theorem C1_context_window_size_prefix_or_default (self : LLM)
    (hcache : self.context_window_size = 0) :
    ((∀ kv ∈ LLM_CONTEXT_WINDOW_SIZES, pyStartsWith self.model kv.1 = false) →
      self.get_context_window_size.1 = 6144) ∧
    (∀ k v,
      LLM_CONTEXT_WINDOW_SIZES.reverse.find?
          (fun kv => pyStartsWith self.model kv.1) = some (k, v) →
      self.get_context_window_size.1 = scaledWindow v) := by
  constructor
  · intro hnone
    rw [get_context_window_size_eq_find self hcache]
    have hfind : LLM_CONTEXT_WINDOW_SIZES.reverse.find?
        (fun kv => pyStartsWith self.model kv.1) = none := by
      rw [List.find?_eq_none]
      intro x hx
      simp only [List.mem_reverse] at hx
      simp [hnone x hx]
    rw [hfind]
    rfl
  · intro k v hfind
    rw [get_context_window_size_eq_find self hcache, hfind]
    rfl

/-- C1 witness: `claude-3-opus` matches no key and gets 6144; the fresh
lookup for `gpt-4o-2024-05-13` is decided by its last table match
(`gpt-4o`, 128000). -/
theorem C1_context_window_size_prefix_or_default_witness :
    (∀ kv ∈ LLM_CONTEXT_WINDOW_SIZES, pyStartsWith "claude-3-opus" kv.1 = false) ∧
    (({ model := "claude-3-opus" } : LLM).get_context_window_size.1 = 6144) ∧
    (LLM_CONTEXT_WINDOW_SIZES.reverse.find?
        (fun kv => pyStartsWith "gpt-4o-2024-05-13" kv.1) = some ("gpt-4o", 128000)) ∧
    (({ model := "gpt-4o-2024-05-13" } : LLM).get_context_window_size.1 =
      scaledWindow 128000) :=
  ⟨by decide,
   (C1_context_window_size_prefix_or_default { model := "claude-3-opus" } rfl).1 (by decide),
   by decide,
   (C1_context_window_size_prefix_or_default { model := "gpt-4o-2024-05-13" } rfl).2
     "gpt-4o" 128000 (by decide)⟩

/-- C2: when two or more table keys are prefixes of the model name, the fresh
lookup returns the scaled capacity of the matching entry declared latest in
the table's insertion order (the last element of the filtered table). -/
theorem C2_last_matching_entry_wins (self : LLM)
    (hcache : self.context_window_size = 0) (k : String) (v : Nat)
    (_hmulti : 2 ≤ (LLM_CONTEXT_WINDOW_SIZES.filter
        (fun kv => pyStartsWith self.model kv.1)).length)
    (hlast : (LLM_CONTEXT_WINDOW_SIZES.filter
        (fun kv => pyStartsWith self.model kv.1)).getLast? = some (k, v)) :
    self.get_context_window_size.1 = scaledWindow v := by
  rw [get_context_window_size_eq_find self hcache,
    ← getLast?_filter_eq_find_reverse, hlast]
  rfl

/-- C2 witness: `gpt-4o-mini-2024` is matched by `gpt-4`, `gpt-4o` and
`gpt-4o-mini`; the last declared match (`gpt-4o-mini`, 128000) wins. -/
theorem C2_last_matching_entry_wins_witness :
    2 ≤ (LLM_CONTEXT_WINDOW_SIZES.filter
        (fun kv => pyStartsWith "gpt-4o-mini-2024" kv.1)).length ∧
    (LLM_CONTEXT_WINDOW_SIZES.filter
        (fun kv => pyStartsWith "gpt-4o-mini-2024" kv.1)).getLast? =
      some ("gpt-4o-mini", 128000) ∧
    ({ model := "gpt-4o-mini-2024" } : LLM).get_context_window_size.1 =
      scaledWindow 128000 :=
  ⟨by decide, by decide,
   C2_last_matching_entry_wins { model := "gpt-4o-mini-2024" } rfl
     "gpt-4o-mini" 128000 (by decide) (by decide)⟩

/-- C4 counterexample: installing an incoming sequence that itself contains
two hooks of the same kind leaves two hooks of that kind coexisting in the
active callback list, refuting that no two hooks of the same kind ever
coexist. -/
theorem C4_counterexample_duplicate_kind_input :
    ({ kind := 0, uid := 1 } : Callback) ∈
      (LLM.set_callbacks [{ kind := 0, uid := 1 }, { kind := 0, uid := 2 }]
        { success_callback := [], async_success_callback := [], callbacks := [] }).callbacks ∧
    ({ kind := 0, uid := 2 } : Callback) ∈
      (LLM.set_callbacks [{ kind := 0, uid := 1 }, { kind := 0, uid := 2 }]
        { success_callback := [], async_success_callback := [], callbacks := [] }).callbacks ∧
    ({ kind := 0, uid := 1 } : Callback).kind = ({ kind := 0, uid := 2 } : Callback).kind ∧
    ({ kind := 0, uid := 1 } : Callback) ≠ ({ kind := 0, uid := 2 } : Callback) := by
  decide

/-- C4 (amended): `set_callbacks` removes from both the success-hook list and
the async-success-hook list every hook whose kind occurs among the incoming
kinds, and installs the incoming sequence wholesale as the active callback
list; installing `[a, b]` and then `[a2]` with `a2` of `a`'s kind leaves
exactly one active hook of `a`'s kind and none of `b`'s kind; and whenever
the incoming hooks have pairwise distinct kinds the active callback list
holds at most one hook per kind.  (The code does not prevent duplicate kinds
inside one incoming sequence, nor does it touch success-list hooks whose
kinds are absent from the incoming sequence.) -/
theorem C4_set_callbacks_dedup_by_kind (st : LitellmState) (cbs : List Callback) :
    ((LLM.set_callbacks cbs st).callbacks = cbs) ∧
    (∀ c, c ∈ (LLM.set_callbacks cbs st).success_callback ↔
      c ∈ st.success_callback ∧ c.kind ∉ cbs.map (fun x => x.kind)) ∧
    (∀ c, c ∈ (LLM.set_callbacks cbs st).async_success_callback ↔
      c ∈ st.async_success_callback ∧ c.kind ∉ cbs.map (fun x => x.kind)) ∧
    (∀ a b a2 : Callback, a2.kind = a.kind →
      (LLM.set_callbacks [a2] (LLM.set_callbacks [a, b] st)).callbacks = [a2] ∧
      ((LLM.set_callbacks [a2] (LLM.set_callbacks [a, b] st)).callbacks.filter
        (fun c => c.kind == a.kind)).length = 1 ∧
      (b.kind ≠ a.kind →
        ((LLM.set_callbacks [a2] (LLM.set_callbacks [a, b] st)).callbacks.filter
          (fun c => c.kind == b.kind)).length = 0)) ∧
    ((cbs.map (fun x => x.kind)).Nodup →
      ((LLM.set_callbacks cbs st).callbacks.map (fun x => x.kind)).Nodup) := by
  refine ⟨rfl, ?_, ?_, ?_, ?_⟩
  · intro c
    simp [LLM.set_callbacks, List.mem_filter]
  · intro c
    simp [LLM.set_callbacks, List.mem_filter]
  · intro a b a2 hkind
    refine ⟨rfl, ?_, ?_⟩
    · simp [LLM.set_callbacks, hkind]
    · intro hb
      simp [LLM.set_callbacks, hkind, hb, Ne.symm hb]
  · intro hnodup
    simpa [LLM.set_callbacks] using hnodup

/-- C4 witness: a concrete run of the amended statement, with distinct-kind
incoming hooks and the `[A, B]` then `[A]` scenario. -/
theorem C4_set_callbacks_dedup_by_kind_witness :
    ((LLM.set_callbacks [{ kind := 0, uid := 1 }, { kind := 1, uid := 2 }]
      { success_callback := [{ kind := 0, uid := 9 }, { kind := 2, uid := 9 }],
        async_success_callback := [{ kind := 1, uid := 9 }],
        callbacks := [] }).callbacks =
      [{ kind := 0, uid := 1 }, { kind := 1, uid := 2 }]) ∧
    (({ kind := 2, uid := 9 } : Callback) ∈
      (LLM.set_callbacks [{ kind := 0, uid := 1 }, { kind := 1, uid := 2 }]
        { success_callback := [{ kind := 0, uid := 9 }, { kind := 2, uid := 9 }],
          async_success_callback := [{ kind := 1, uid := 9 }],
          callbacks := [] }).success_callback ↔
      ({ kind := 2, uid := 9 } : Callback) ∈
        [({ kind := 0, uid := 9 } : Callback), { kind := 2, uid := 9 }] ∧
        (2 : Nat) ∉ [0, 1]) ∧
    ((LLM.set_callbacks [{ kind := 0, uid := 3 }]
      (LLM.set_callbacks [{ kind := 0, uid := 1 }, { kind := 1, uid := 2 }]
        { success_callback := [{ kind := 0, uid := 9 }, { kind := 2, uid := 9 }],
          async_success_callback := [{ kind := 1, uid := 9 }],
          callbacks := [] })).callbacks = [{ kind := 0, uid := 3 }]) ∧
    (((LLM.set_callbacks [{ kind := 0, uid := 3 }]
      (LLM.set_callbacks [{ kind := 0, uid := 1 }, { kind := 1, uid := 2 }]
        { success_callback := [{ kind := 0, uid := 9 }, { kind := 2, uid := 9 }],
          async_success_callback := [{ kind := 1, uid := 9 }],
          callbacks := [] })).callbacks.filter
        (fun c => c.kind == (0 : Nat))).length = 1) ∧
    (((LLM.set_callbacks [{ kind := 0, uid := 1 }, { kind := 1, uid := 2 }]
      { success_callback := [{ kind := 0, uid := 9 }, { kind := 2, uid := 9 }],
        async_success_callback := [{ kind := 1, uid := 9 }],
        callbacks := [] }).callbacks.map (fun x => x.kind)).Nodup) := by
  have h := C4_set_callbacks_dedup_by_kind
    { success_callback := [{ kind := 0, uid := 9 }, { kind := 2, uid := 9 }],
      async_success_callback := [{ kind := 1, uid := 9 }],
      callbacks := [] }
    [{ kind := 0, uid := 1 }, { kind := 1, uid := 2 }]
  refine ⟨h.1, ?_, ?_, ?_, h.2.2.2.2 (by decide)⟩
  · have h2 := h.2.1 { kind := 2, uid := 9 }
    simpa using h2
  · exact (h.2.2.2.1 { kind := 0, uid := 1 } { kind := 1, uid := 2 }
      { kind := 0, uid := 3 } rfl).1
  · exact (h.2.2.2.1 { kind := 0, uid := 1 } { kind := 1, uid := 2 }
      { kind := 0, uid := 3 } rfl).2.1


/-- C9: when the completion provider fails, `LLM.call` re-raises the failure
to the caller in every case; the generic error log is suppressed exactly when
the context-length-exceeded heuristic matches the failure message, and
emitted otherwise. -/
theorem C9_provider_failure_reraised {ρ : Type} (self : LLM)
    (messages : Messages) (tools : Option (List ToolSchema))
    (cbs : Option (List Callback))
    (af : Option (List (String × (Args → Except String ρ))))
    (decode : String → Option Args) (heur : String → Bool)
    (completion : List (String × PValue) → Except String ChoiceMessage)
    (st : LitellmState) (e : String)
    (h : completion (self.callParams messages tools) = .error e) :
    (LLM.call self messages tools cbs af decode heur completion st).1 =
      .error e ∧
    (LLM.call self messages tools cbs af decode heur completion st).2.2 =
      (if heur e then [] else [.error ("LiteLLM call failed: " ++ e)]) := by
  constructor <;> simp [LLM.call, h]

/-- C9 witness: a failing provider with a non-matching heuristic propagates
the error and logs it; with a matching heuristic it propagates the error and
logs nothing. -/
theorem C9_provider_failure_reraised_witness :
    ((LLM.call (ρ := Nat) { model := "m" } [] none none none
        (fun _ => none) (fun _ => false) (fun _ => Except.error "boom")
        ⟨[], [], []⟩).1 = .error "boom") ∧
    ((LLM.call (ρ := Nat) { model := "m" } [] none none none
        (fun _ => none) (fun _ => false) (fun _ => Except.error "boom")
        ⟨[], [], []⟩).2.2 = [.error "LiteLLM call failed: boom"]) ∧
    ((LLM.call (ρ := Nat) { model := "m" } [] none none none
        (fun _ => none) (fun _ => true) (fun _ => Except.error "boom")
        ⟨[], [], []⟩).1 = .error "boom") ∧
    ((LLM.call (ρ := Nat) { model := "m" } [] none none none
        (fun _ => none) (fun _ => true) (fun _ => Except.error "boom")
        ⟨[], [], []⟩).2.2 = []) :=
  ⟨(C9_provider_failure_reraised { model := "m" } [] none none none
      (fun _ => none) (fun _ => false) (fun _ => Except.error "boom")
      ⟨[], [], []⟩ "boom" rfl).1,
   (C9_provider_failure_reraised { model := "m" } [] none none none
      (fun _ => none) (fun _ => false) (fun _ => Except.error "boom")
      ⟨[], [], []⟩ "boom" rfl).2,
   (C9_provider_failure_reraised { model := "m" } [] none none none
      (fun _ => none) (fun _ => true) (fun _ => Except.error "boom")
      ⟨[], [], []⟩ "boom" rfl).1,
   (C9_provider_failure_reraised { model := "m" } [] none none none
      (fun _ => none) (fun _ => true) (fun _ => Except.error "boom")
      ⟨[], [], []⟩ "boom" rfl).2⟩

/-- C3: routing of a provider response by `LLM.call`.  The call returns the
routed result of the response message; routing returns the message text when
there are no tool calls or no function table, returns the text (rather than
raising) when the first tool call names an unregistered function, returns the
text when the argument payload does not decode to a mapping, and returns the
registered function's result instead of the text when dispatch succeeds. -/
theorem C3_response_routing {ρ : Type} (decode : String → Option Args)
    (rm : ChoiceMessage) :
    (∀ (self : LLM) (messages : Messages) (tools : Option (List ToolSchema))
        (cbs : Option (List Callback))
        (af : Option (List (String × (Args → Except String ρ))))
        (heur : String → Bool)
        (completion : List (String × PValue) → Except String ChoiceMessage)
        (st : LitellmState),
      completion (self.callParams messages tools) = .ok rm →
      (LLM.call self messages tools cbs af decode heur completion st).1 =
        .ok (routeResponse decode af rm).1) ∧
    (∀ af : Option (List (String × (Args → Except String ρ))),
      rm.tool_calls = [] ∨ af = none →
      (routeResponse decode af rm).1 = .text (rm.content.getD "")) ∧
    (∀ (fns : List (String × (Args → Except String ρ))) (tc : ToolCall)
        (rest : List ToolCall), rm.tool_calls = tc :: rest →
      fns.find? (fun kv => kv.1 == tc.function.name) = none →
      (routeResponse decode (some fns) rm).1 = .text (rm.content.getD "")) ∧
    (∀ (fns : List (String × (Args → Except String ρ))) (tc : ToolCall)
        (rest : List ToolCall), rm.tool_calls = tc :: rest →
      decode tc.function.arguments = none →
      (routeResponse decode (some fns) rm).1 = .text (rm.content.getD "")) ∧
    (∀ (fns : List (String × (Args → Except String ρ))) (tc : ToolCall)
        (rest : List ToolCall) (nm : String) (f : Args → Except String ρ)
        (args : Args) (r : ρ), rm.tool_calls = tc :: rest →
      fns.find? (fun kv => kv.1 == tc.function.name) = some (nm, f) →
      decode tc.function.arguments = some args →
      f args = .ok r →
      (routeResponse decode (some fns) rm).1 = .toolResult r) := by
  obtain ⟨content, tcs⟩ := rm
  refine ⟨?_, ?_, ?_, ?_, ?_⟩
  · intro self messages tools cbs af heur completion st h
    simp [LLM.call, h]
  · intro af hcase
    rcases hcase with h | h
    · have h2 : tcs = [] := h
      subst h2
      simp [routeResponse]
    · subst h
      cases tcs <;> simp [routeResponse]
  · intro fns tc rest htc hfind
    have h2 : tcs = tc :: rest := htc
    subst h2
    by_cases hne : fns.isEmpty <;> simp [routeResponse, hne, hfind]
  · intro fns tc rest htc hdec
    have h2 : tcs = tc :: rest := htc
    subst h2
    by_cases hne : fns.isEmpty
    · simp [routeResponse, hne]
    · cases hf : fns.find? (fun kv => kv.1 == tc.function.name) <;>
        simp [routeResponse, hne, hf, hdec]
  · intro fns tc rest nm f args r htc hfind hdec hok
    have h2 : tcs = tc :: rest := htc
    subst h2
    have hne : fns.isEmpty = false := by
      cases fns
      · simp at hfind
      · rfl
    simp [routeResponse, hne, hfind, hdec, hok]

/-- C3 witness: concrete runs of all routing branches with a one-entry
function table. -/
theorem C3_response_routing_witness :
    ((LLM.call (ρ := Nat) { model := "m" } [] none none
        (some [("f", fun _ => Except.ok 7)])
        (fun s => if s == "ok" then some [("x", "1")] else none)
        (fun _ => false)
        (fun _ => Except.ok ⟨some "hello", [⟨⟨"f", "ok"⟩⟩]⟩)
        ⟨[], [], []⟩).1 =
      .ok (routeResponse (fun s => if s == "ok" then some [("x", "1")] else none)
        (some [("f", fun _ => Except.ok 7)]) ⟨some "hello", [⟨⟨"f", "ok"⟩⟩]⟩).1) ∧
    ((routeResponse (ρ := Nat)
        (fun s => if s == "ok" then some [("x", "1")] else none)
        none ⟨some "hello", []⟩).1 = .text "hello") ∧
    ((routeResponse (fun s => if s == "ok" then some [("x", "1")] else none)
        (some [("f", fun _ => Except.ok 7)]) ⟨some "hello", [⟨⟨"h", "ok"⟩⟩]⟩).1 =
      .text "hello") ∧
    ((routeResponse (fun s => if s == "ok" then some [("x", "1")] else none)
        (some [("f", fun _ => Except.ok 7)]) ⟨some "hello", [⟨⟨"f", "bad"⟩⟩]⟩).1 =
      .text "hello") ∧
    ((routeResponse (fun s => if s == "ok" then some [("x", "1")] else none)
        (some [("f", fun _ => Except.ok 7)]) ⟨some "hello", [⟨⟨"f", "ok"⟩⟩]⟩).1 =
      .toolResult 7) :=
  ⟨(C3_response_routing (fun s => if s == "ok" then some [("x", "1")] else none)
      ⟨some "hello", [⟨⟨"f", "ok"⟩⟩]⟩).1 { model := "m" } [] none none
      (some [("f", fun _ => Except.ok 7)]) (fun _ => false)
      (fun _ => Except.ok ⟨some "hello", [⟨⟨"f", "ok"⟩⟩]⟩) ⟨[], [], []⟩ rfl,
   (C3_response_routing (fun s => if s == "ok" then some [("x", "1")] else none)
      ⟨some "hello", []⟩).2.1 none (Or.inl rfl),
   (C3_response_routing (fun s => if s == "ok" then some [("x", "1")] else none)
      ⟨some "hello", [⟨⟨"h", "ok"⟩⟩]⟩).2.2.1 [("f", fun _ => Except.ok 7)]
      ⟨⟨"h", "ok"⟩⟩ [] rfl rfl,
   (C3_response_routing (fun s => if s == "ok" then some [("x", "1")] else none)
      ⟨some "hello", [⟨⟨"f", "bad"⟩⟩]⟩).2.2.2.1 [("f", fun _ => Except.ok 7)]
      ⟨⟨"f", "bad"⟩⟩ [] rfl rfl,
   (C3_response_routing (fun s => if s == "ok" then some [("x", "1")] else none)
      ⟨some "hello", [⟨⟨"f", "ok"⟩⟩]⟩).2.2.2.2 [("f", fun _ => Except.ok 7)]
      ⟨⟨"f", "ok"⟩⟩ [] "f" (fun _ => Except.ok 7) [("x", "1")] 7 rfl rfl rfl rfl⟩

set_option maxHeartbeats 2000000 in
/-- C5: the outgoing parameter set of `LLM.call` never contains a key whose
configured value is unset (`None` values are dropped; the effective
max-tokens slot is set whenever `max_tokens or max_completion_tokens` is);
`model`, `messages` and `stream = false` are always present; and a
configuration with only the model set yields exactly
`model, messages, stream = false`, plus `tools` when a schema list is
supplied. -/
theorem C5_params_contain_no_unset_keys (self : LLM) (messages : Messages)
    (tools : Option (List ToolSchema)) :
    ("model" ∈ (self.callParams messages tools).map Prod.fst) ∧
    ("messages" ∈ (self.callParams messages tools).map Prod.fst) ∧
    ("stream" ∈ (self.callParams messages tools).map Prod.fst) ∧
    (self.timeout = none →
      "timeout" ∉ (self.callParams messages tools).map Prod.fst) ∧
    (self.temperature = none →
      "temperature" ∉ (self.callParams messages tools).map Prod.fst) ∧
    (self.top_p = none →
      "top_p" ∉ (self.callParams messages tools).map Prod.fst) ∧
    (self.n = none →
      "n" ∉ (self.callParams messages tools).map Prod.fst) ∧
    (self.stop = none →
      "stop" ∉ (self.callParams messages tools).map Prod.fst) ∧
    (pyOrInt self.max_tokens self.max_completion_tokens = none →
      "max_tokens" ∉ (self.callParams messages tools).map Prod.fst) ∧
    (self.presence_penalty = none →
      "presence_penalty" ∉ (self.callParams messages tools).map Prod.fst) ∧
    (self.frequency_penalty = none →
      "frequency_penalty" ∉ (self.callParams messages tools).map Prod.fst) ∧
    (self.logit_bias = none →
      "logit_bias" ∉ (self.callParams messages tools).map Prod.fst) ∧
    (self.response_format = none →
      "response_format" ∉ (self.callParams messages tools).map Prod.fst) ∧
    (self.seed = none →
      "seed" ∉ (self.callParams messages tools).map Prod.fst) ∧
    (self.logprobs = none →
      "logprobs" ∉ (self.callParams messages tools).map Prod.fst) ∧
    (self.top_logprobs = none →
      "top_logprobs" ∉ (self.callParams messages tools).map Prod.fst) ∧
    (self.base_url = none →
      "api_base" ∉ (self.callParams messages tools).map Prod.fst) ∧
    (self.api_version = none →
      "api_version" ∉ (self.callParams messages tools).map Prod.fst) ∧
    (self.api_key = none →
      "api_key" ∉ (self.callParams messages tools).map Prod.fst) ∧
    (tools = none →
      "tools" ∉ (self.callParams messages tools).map Prod.fst) ∧
    (∀ (m2 : String) (ms2 : Messages),
      ({ model := m2 } : LLM).callParams ms2 none =
        [("model", .pStr m2), ("messages", .pMsgs ms2),
         ("stream", .pBool false)]) ∧
    (∀ (m2 : String) (ms2 : Messages) (ts : List ToolSchema),
      ({ model := m2 } : LLM).callParams ms2 (some ts) =
        [("model", .pStr m2), ("messages", .pMsgs ms2),
         ("stream", .pBool false), ("tools", .pTools ts)]) := by
  refine ⟨?_, ?_, ?_, ?_, ?_, ?_, ?_, ?_, ?_, ?_, ?_, ?_, ?_, ?_, ?_, ?_, ?_,
    ?_, ?_, ?_, fun m2 ms2 => rfl, fun m2 ms2 ts => rfl⟩
  all_goals intros
  all_goals simp [LLM.callParams, LLM.paramsPre, List.mem_filterMap, *]

/-- C5 witness: a configuration with only the model set, empty messages and
no tools exercises every conjunct at a concrete input. -/
theorem C5_params_contain_no_unset_keys_witness :
    ("model" ∈ (({ model := "m" } : LLM).callParams [] none).map Prod.fst) ∧
    ("timeout" ∉ (({ model := "m" } : LLM).callParams [] none).map Prod.fst) ∧
    ("temperature" ∉ (({ model := "m" } : LLM).callParams [] none).map Prod.fst) ∧
    ("top_p" ∉ (({ model := "m" } : LLM).callParams [] none).map Prod.fst) ∧
    ("n" ∉ (({ model := "m" } : LLM).callParams [] none).map Prod.fst) ∧
    ("stop" ∉ (({ model := "m" } : LLM).callParams [] none).map Prod.fst) ∧
    ("max_tokens" ∉ (({ model := "m" } : LLM).callParams [] none).map Prod.fst) ∧
    ("presence_penalty" ∉ (({ model := "m" } : LLM).callParams [] none).map Prod.fst) ∧
    ("frequency_penalty" ∉ (({ model := "m" } : LLM).callParams [] none).map Prod.fst) ∧
    ("logit_bias" ∉ (({ model := "m" } : LLM).callParams [] none).map Prod.fst) ∧
    ("response_format" ∉ (({ model := "m" } : LLM).callParams [] none).map Prod.fst) ∧
    ("seed" ∉ (({ model := "m" } : LLM).callParams [] none).map Prod.fst) ∧
    ("logprobs" ∉ (({ model := "m" } : LLM).callParams [] none).map Prod.fst) ∧
    ("top_logprobs" ∉ (({ model := "m" } : LLM).callParams [] none).map Prod.fst) ∧
    ("api_base" ∉ (({ model := "m" } : LLM).callParams [] none).map Prod.fst) ∧
    ("api_version" ∉ (({ model := "m" } : LLM).callParams [] none).map Prod.fst) ∧
    ("api_key" ∉ (({ model := "m" } : LLM).callParams [] none).map Prod.fst) ∧
    ("tools" ∉ (({ model := "m" } : LLM).callParams [] none).map Prod.fst) ∧
    (({ model := "m" } : LLM).callParams [] none =
      [("model", .pStr "m"), ("messages", .pMsgs []), ("stream", .pBool false)]) ∧
    (({ model := "m" } : LLM).callParams [] (some ["schema"]) =
      [("model", .pStr "m"), ("messages", .pMsgs []), ("stream", .pBool false),
       ("tools", .pTools ["schema"])]) := by
  have h := C5_params_contain_no_unset_keys { model := "m" } [] none
  exact ⟨h.1, h.2.2.2.1 rfl, h.2.2.2.2.1 rfl, h.2.2.2.2.2.1 rfl,
    h.2.2.2.2.2.2.1 rfl, h.2.2.2.2.2.2.2.1 rfl, h.2.2.2.2.2.2.2.2.1 rfl,
    h.2.2.2.2.2.2.2.2.2.1 rfl, h.2.2.2.2.2.2.2.2.2.2.1 rfl,
    h.2.2.2.2.2.2.2.2.2.2.2.1 rfl, h.2.2.2.2.2.2.2.2.2.2.2.2.1 rfl,
    h.2.2.2.2.2.2.2.2.2.2.2.2.2.1 rfl, h.2.2.2.2.2.2.2.2.2.2.2.2.2.2.1 rfl,
    h.2.2.2.2.2.2.2.2.2.2.2.2.2.2.2.1 rfl,
    h.2.2.2.2.2.2.2.2.2.2.2.2.2.2.2.2.1 rfl,
    h.2.2.2.2.2.2.2.2.2.2.2.2.2.2.2.2.2.1 rfl,
    h.2.2.2.2.2.2.2.2.2.2.2.2.2.2.2.2.2.2.1 rfl,
    h.2.2.2.2.2.2.2.2.2.2.2.2.2.2.2.2.2.2.2.1 rfl,
    h.2.2.2.2.2.2.2.2.2.2.2.2.2.2.2.2.2.2.2.2.1 "m" [],
    h.2.2.2.2.2.2.2.2.2.2.2.2.2.2.2.2.2.2.2.2.2 "m" [] ["schema"]⟩

/-- C6 counterexample: with `max_tokens = 0` (present) and
`max_completion_tokens = 5`, the effective max-tokens value sent is 5, not
the configured `max_tokens` value 0 — Python `or` tests truthiness, not
presence. -/
theorem C6_counterexample_zero_max_tokens :
    ("max_tokens", PValue.pInt 5) ∈
      ({ model := "m", max_tokens := some 0,
         max_completion_tokens := some 5 } : LLM).callParams [] none ∧
    ("max_tokens", PValue.pInt 0) ∉
      ({ model := "m", max_tokens := some 0,
         max_completion_tokens := some 5 } : LLM).callParams [] none := by
  decide

/-- C6 (amended): the effective max-tokens entry of the outgoing parameter
set is `max_tokens or max_completion_tokens` under Python truthiness: it
equals `max_tokens` whenever that is present and non-zero, and
`max_completion_tokens` whenever `max_tokens` is absent or zero (the key
being dropped when the effective value is `None`). -/
theorem C6_effective_max_tokens (self : LLM) (messages : Messages)
    (tools : Option (List ToolSchema)) :
    (∀ v : Int, ("max_tokens", PValue.pInt v) ∈ self.callParams messages tools ↔
      pyOrInt self.max_tokens self.max_completion_tokens = some v) ∧
    (∀ v : Int, self.max_tokens = some v → v ≠ 0 →
      ("max_tokens", PValue.pInt v) ∈ self.callParams messages tools) ∧
    ((self.max_tokens = none ∨ self.max_tokens = some 0) →
      pyOrInt self.max_tokens self.max_completion_tokens =
        self.max_completion_tokens) := by
  refine ⟨?_, ?_, ?_⟩
  · intro v
    simp [LLM.callParams, LLM.paramsPre, List.mem_filterMap]
  · intro v h hv
    simp [LLM.callParams, LLM.paramsPre, List.mem_filterMap, pyOrInt, h, hv]
  · rintro (h | h) <;> simp [pyOrInt, h]

/-- C6 witness: a non-zero `max_tokens` is sent as such; a zero `max_tokens`
falls through to `max_completion_tokens`. -/
theorem C6_effective_max_tokens_witness :
    (("max_tokens", PValue.pInt 4) ∈
      ({ model := "m", max_tokens := some 4,
         max_completion_tokens := some 9 } : LLM).callParams [] none ↔
      pyOrInt (some 4) (some 9) = some 4) ∧
    (("max_tokens", PValue.pInt 4) ∈
      ({ model := "m", max_tokens := some 4,
         max_completion_tokens := some 9 } : LLM).callParams [] none) ∧
    (pyOrInt (some 0) (some 5) = some 5) :=
  ⟨(C6_effective_max_tokens
      { model := "m", max_tokens := some 4, max_completion_tokens := some 9 }
      [] none).1 4,
   (C6_effective_max_tokens
      { model := "m", max_tokens := some 4, max_completion_tokens := some 9 }
      [] none).2.1 4 rfl (by decide),
   (C6_effective_max_tokens
      { model := "m", max_tokens := some 0, max_completion_tokens := some 5 }
      [] none).2.2 (Or.inr rfl)⟩

theorem decodeOptInt_dOptInt (o : Option Int) :
    decodeOptInt (dOptInt o) = .ok o := by
  cases o <;> rfl

theorem decodeOptBool_dOptBool (o : Option Bool) :
    decodeOptBool (dOptBool o) = .ok o := by
  cases o <;> rfl

theorem decodeOptStr_dOptStr (o : Option String) :
    decodeOptStr (dOptStr o) = .ok o := by
  cases o <;> rfl

theorem decodeOptStrOrList_enc (o : Option StrOrList) :
    decodeOptStrOrList (dOptStrOrList o) = .ok o := by
  cases o <;> rfl

theorem decodeOptIntMap_enc (o : Option (List (Int × Int))) :
    decodeOptIntMap (dOptIntMap o) = .ok o := by
  cases o <;> rfl

theorem decodeOptStrMap_enc (o : Option (List (String × String))) :
    decodeOptStrMap (dOptStrMap o) = .ok o := by
  cases o <;> rfl

set_option maxHeartbeats 2000000 in
/-- C7: serializing a client configuration with `to_dict` and reconstructing
with `from_dict` succeeds, reproduces every configuration field of the
original — including fields whose value is `None` — and leaves no residual
keys; only the `context_window_size` cache (not a configuration field, and
absent from `to_dict`) is re-initialized to 0 by the constructor. -/
theorem C7_to_dict_from_dict_roundtrip (self : LLM) :
    LLM.from_dict (LLM.to_dict self) =
      (.ok { self with context_window_size := 0 }, []) := by
  simp [LLM.from_dict, LLM.to_dict, dictPop, LLM.mk_kwargs,
    decodeOptInt_dOptInt, decodeOptBool_dOptBool, decodeOptStr_dOptStr,
    decodeOptStrOrList_enc, decodeOptIntMap_enc, decodeOptStrMap_enc,
    decodeStr, decodeCallbacks]
  rfl

/-- C8: a mapping with an unknown extra key is forwarded to construction by
`from_dict` (the key survives the pops), but construction then fails with a
`TypeError` because `__init__` declares no `**kwargs` — it does not succeed
as the claim states.  This evaluates the code at the failing input
`[model = "gpt-4", custom_key = 1]`. -/
theorem C8_unknown_key_raises_type_error :
    (LLM.from_dict [("model", .vStr "gpt-4"), ("custom_key", .vInt 1)]).1 =
      .error "TypeError: unexpected keyword argument" ∧
    (LLM.from_dict [("model", .vStr "gpt-4"), ("custom_key", .vInt 1)]).2 =
      [("custom_key", .vInt 1)] :=
  ⟨rfl, rfl⟩

/-- Popping a key leaves exactly the entries with a different key (when the
key is absent, the pop is the identity on the mapping). -/
theorem dictPop_snd (data : List (String × DVal)) (k : String) :
    (dictPop data k).2 = data.filter (fun kv => kv.1 != k) := by
  cases h : data.find? (fun kv => kv.1 == k) with
  | none =>
    have hall := List.find?_eq_none.mp h
    simp only [dictPop, h]
    refine (List.filter_eq_self.mpr ?_).symm
    intro kv hkv
    simpa using hall kv hkv
  | some kv => simp only [dictPop, h]

/-- C10: `from_dict` consumes its input mapping: afterwards the caller's
mapping holds exactly the entries whose key is not a known configuration
field — every known key has been popped and every unknown entry remains. -/
theorem C10_from_dict_consumes_known_keys (data : List (String × DVal)) :
    (∀ kv ∈ (LLM.from_dict data).2, kv ∈ data ∧ kv.1 ∉ knownFieldKeys) ∧
    (∀ kv ∈ data, kv.1 ∉ knownFieldKeys → kv ∈ (LLM.from_dict data).2) := by
  constructor
  · intro kv hkv
    simp only [LLM.from_dict, dictPop_snd, List.filter_filter] at hkv
    rw [List.mem_filter] at hkv
    refine ⟨hkv.1, ?_⟩
    have hp := hkv.2
    simp only [Bool.and_eq_true, bne_iff_ne] at hp
    simp [knownFieldKeys]
    tauto
  · intro kv hmem hnotin
    simp only [LLM.from_dict, dictPop_snd, List.filter_filter]
    rw [List.mem_filter]
    refine ⟨hmem, ?_⟩
    simp [knownFieldKeys] at hnotin
    simp only [Bool.and_eq_true, bne_iff_ne]
    tauto

/-- C10 witness: popping the known `model` key from a concrete mapping leaves
exactly the unknown `extra` entry. -/
theorem C10_from_dict_consumes_known_keys_witness :
    ((("extra", DVal.vInt 3) ∈
        ([("model", DVal.vStr "x"), ("extra", DVal.vInt 3)] :
          List (String × DVal)) ∧
      "extra" ∉ knownFieldKeys) ∧
    (("extra", DVal.vInt 3) ∈
      (LLM.from_dict [("model", DVal.vStr "x"), ("extra", DVal.vInt 3)]).2)) :=
  ⟨(C10_from_dict_consumes_known_keys
      [("model", DVal.vStr "x"), ("extra", DVal.vInt 3)]).1
      ("extra", DVal.vInt 3) (by decide),
   (C10_from_dict_consumes_known_keys
      [("model", DVal.vStr "x"), ("extra", DVal.vInt 3)]).2
      ("extra", DVal.vInt 3) (by decide) (by decide)⟩
